import Mathlib

/-!
Verification of the asynchronous job-completion and authentication-token
lifecycle core of the `mixcli` command-line client.

The definitions below are shallow embeddings of the Python source:
* `mixcli/command/job/status.py` — job status classification,
* `mixcli/command/job/wait.py` — the polling wait loop `job_wait`,
* `mixcli/util/auth/__init__.py` — token store (`MixApiAuthHandler`),
* `mixcli/util/auth/pyreq_auth.py` — client-credential auth flow,
* `mixcli/command/project/build.py` — concurrent multi-job wait,
* `mixcli/util/__init__.py` — `count_notnone`.

Machine integers do not occur; times are naturals (seconds), JSON payloads
are modelled just deeply enough for the fields the code touches, and Python
exceptions are modelled with `Except`.
-/

namespace MixCli

/-- Decidable equality for `Except`, used to keep run results of the
embedded programs decidably comparable. -/
def exceptEqDec {ε α : Type} [DecidableEq ε] [DecidableEq α] : DecidableEq (Except ε α)
  | .error e, .error f =>
    if h : e = f then .isTrue (h ▸ rfl) else .isFalse (fun hh => h (by injection hh))
  | .error _, .ok _ => .isFalse (fun hh => Except.noConfusion hh)
  | .ok _, .error _ => .isFalse (fun hh => Except.noConfusion hh)
  | .ok a, .ok b =>
    if h : a = b then .isTrue (h ▸ rfl) else .isFalse (fun hh => h (by injection hh))

instance {ε α : Type} [DecidableEq ε] [DecidableEq α] : DecidableEq (Except ε α) :=
  exceptEqDec

/-- ASCII lowercasing of one character, the behaviour of Python's
`str.lower` on the ASCII status strings this code compares. -/
def lowerChar (c : Char) : Char :=
  if 'A' ≤ c ∧ c ≤ 'Z' then Char.ofNat (c.toNat + 32) else c

/-- Python's `str.lower()` as used on job status values (ASCII). -/
def strLower (s : String) : String := ⟨s.data.map lowerChar⟩

/-- The portion of a job-status JSON payload that the status predicates in
`job/status.py` inspect: the optional `status` field (`none` models a JSON
object lacking the field). -/
structure JobMeta where
  status : Option String
  deriving DecidableEq, Repr

/-- Errors raised by the status predicates and the wait engine.
`invalidMeta` is the `ValueError` of `assert_job_meta_json` (missing
`status` field); `jobNotFound` the `ValueError` wrapping a failed initial
`check_job_status`; `timeoutExc` the `TimeoutError`; `jobFailedExc` the
`RuntimeError` on a failed job; `unexpectedEnum` the trailing
`ValueError('Unexpected job status enum from meta: ...')`; `pollFailure`
an exception propagating from an in-loop `check_job_status` call. -/
inductive WaitErr where
  | invalidMeta
  | jobNotFound
  | timeoutExc
  | jobFailedExc
  | unexpectedEnum
  | pollFailure
  deriving DecidableEq, Repr

/-- `job_status_from_meta` (status.py): return the `status` field, after the
`assert_job_meta` decorator checked its presence. -/
def job_status_from_meta (m : JobMeta) : Except WaitErr String :=
  match m.status with
  | none => .error .invalidMeta
  | some s => .ok s

/-- `JOB_STATUS_COMPLETED` (status.py). -/
def JOB_STATUS_COMPLETED : String := "completed"

/-- `JOB_STATUS_FAILED` (status.py). -/
def JOB_STATUS_FAILED : String := "failed"

/-- `job_succeeded` (status.py): status, lower-cased, equals "completed". -/
def job_succeeded (m : JobMeta) : Except WaitErr Bool :=
  (job_status_from_meta m).map (fun s => strLower s == JOB_STATUS_COMPLETED)

/-- `job_failed` (status.py): status, lower-cased, equals "failed". -/
def job_failed (m : JobMeta) : Except WaitErr Bool :=
  (job_status_from_meta m).map (fun s => strLower s == JOB_STATUS_FAILED)

/-- `job_completed` (status.py): lower-cased status is "completed" or
"failed". -/
def job_completed (m : JobMeta) : Except WaitErr Bool :=
  (job_status_from_meta m).map
    (fun s => strLower s == JOB_STATUS_COMPLETED || strLower s == JOB_STATUS_FAILED)

/-- `JOB_STATUS_CHK_INTVL` (wait.py): the fixed 5-second sleep interval. -/
def JOB_STATUS_CHK_INTVL : Nat := 5

/-- `DEFAULT_JOB_WAIT_TIMEOUT_SEC` (wait.py): 10 * 60. -/
def DEFAULT_JOB_WAIT_TIMEOUT_SEC : Nat := 10 * 60

/-- Result values returned by `job_wait` (wait.py): `True` on success,
`False` on failure, `None` on a non-raising timeout. -/
inductive WaitRes where
  | succeeded
  | failed
  | timedOut
  deriving DecidableEq, Repr

/-- Outcome of a `job_wait` run together with its instrumented poll trace:
`pollTimes` records the value of `time_waited` at each `check_job_status`
call, in order (the initial poll happens at accumulated time 0). -/
structure WaitTrace where
  result : Except WaitErr WaitRes
  pollTimes : List Nat
  deriving DecidableEq, Repr

/-- The `while not job_completed(...)` loop of `job_wait` (wait.py) together
with the post-loop status dispatch, fuel-indexed because `infinite_wait`
admits genuinely unbounded runs. `polls idx` is the result of the
`idx`-th `check_job_status` call (`none` models the call raising).
`none` overall means the fuel ran out before the run finished. -/
def job_wait_loop (polls : Nat → Option JobMeta) (timeout : Nat)
    (infiniteWait excIfTimeout excIfFailed : Bool) :
    Nat → Nat → Nat → JobMeta → List Nat → Option WaitTrace
  | 0, _, _, _, _ => none
  | fuel + 1, idx, timeWaited, cur, acc =>
    match job_completed cur with
    | .error e => some ⟨.error e, acc⟩
    | .ok true =>
      -- loop exit: `if job_succeeded ... elif job_failed ... else raise ValueError`
      match job_succeeded cur with
      | .error e => some ⟨.error e, acc⟩
      | .ok true => some ⟨.ok .succeeded, acc⟩
      | .ok false =>
        match job_failed cur with
        | .error e => some ⟨.error e, acc⟩
        | .ok true =>
          if excIfFailed then some ⟨.error .jobFailedExc, acc⟩
          else some ⟨.ok .failed, acc⟩
        | .ok false => some ⟨.error .unexpectedEnum, acc⟩
    | .ok false =>
      if !infiniteWait && timeout ≤ timeWaited then
        if excIfTimeout then some ⟨.error .timeoutExc, acc⟩
        else some ⟨.ok .timedOut, acc⟩
      else
        -- sleep(JOB_STATUS_CHK_INTVL); time_waited += JOB_STATUS_CHK_INTVL; poll again
        let tw := timeWaited + JOB_STATUS_CHK_INTVL
        match polls idx with
        | none => some ⟨.error .pollFailure, acc⟩
        | some m =>
          job_wait_loop polls timeout infiniteWait excIfTimeout excIfFailed
            fuel (idx + 1) tw m (acc ++ [tw])

/-- `job_wait` (wait.py). `timeout = none` models passing `None`; a supplied
`0` is falsy in Python, so `if not timeout` replaces both by the 600-second
default. The initial `check_job_status` failing (`polls 0 = none`) is the
fast `ValueError('Cannot find the job to wait for...')`. -/
def job_wait (polls : Nat → Option JobMeta) (timeout : Option Nat)
    (infiniteWait excIfTimeout excIfFailed : Bool) (fuel : Nat) :
    Option WaitTrace :=
  match polls 0 with
  | none => some ⟨.error .jobNotFound, []⟩
  | some m0 =>
    let t := match timeout with
      | none => DEFAULT_JOB_WAIT_TIMEOUT_SEC
      | some 0 => DEFAULT_JOB_WAIT_TIMEOUT_SEC
      | some t => t
    job_wait_loop polls t infiniteWait excIfTimeout excIfFailed fuel 1 0 m0 [0]

/-- A poll stream that always reports the given status (total variant). -/
def constStatus (s : String) : Nat → Option JobMeta := fun _ => some ⟨some s⟩

/-! ## Token store and auth flow (`util/auth/__init__.py`, `util/auth/pyreq_auth.py`) -/

/-- `MixApiClientCred`: the `{client-id, service-secret}` pair. -/
structure ClientCred where
  client_id : String
  service_secret : String
  deriving DecidableEq, Repr

/-- `MixJsonToken`, reduced to the two parts the token lifecycle reads:
the `access_token` string and the parsed `expires_at` stamp. The stamp is
written with `TIMESTAMP_FORMAT = '%Y%m%dT%H:%M'`, so it carries minute
resolution; we represent it by its total number of minutes. -/
structure IssuedTok where
  access_token : String
  expires_at_min : Nat
  deriving DecidableEq, Repr

/-- `MixApiAuthHandler`: the four strategy fields set by `config`, the
cached `_token_clientauth`, plus `nexch`, an instrumentation counter of
how many client-credential exchanges (`pyreq_client_cred_auth` calls)
have been performed, used to index the environment's stream of freshly
issued token strings. -/
structure MixApiAuthHandler where
  token_str : Option String
  token_file : Option String
  client_cred_file : Option String
  client_cred : Option ClientCred
  token_clientauth : Option IssuedTok
  nexch : Nat
  deriving DecidableEq, Repr

/-- Errors of the auth component: `MixApiAuthTokenExpirationError` and
`MixApiAuthFailureError`. -/
inductive AuthErr where
  | tokenExpired
  | authFailure
  deriving DecidableEq, Repr

/-- Configuration errors of `config_from_sources`: the two `ValueError`s
for zero and for more than one source, and `fileError` for an exception
escaping a file open/parse of a supplied source. -/
inductive AuthCfgErr where
  | zeroSources
  | multiSources
  | fileError
  deriving DecidableEq, Repr

/-- Python truthiness of an optional string argument (`None` and `''` are
falsy). -/
def pyTruthyStr : Option String → Bool
  | none => false
  | some s => !(s == "")

/-- `count_notnone` (`util/__init__.py`) at its default `exact_none=False`:
counts the arguments that are truthy. -/
def count_notnone (args : List (Option String)) : Nat :=
  args.foldl (fun base o => if pyTruthyStr o then base + 1 else base) 0

/-- Python whitespace for `str.strip()` (ASCII). -/
def isPySpace (c : Char) : Bool :=
  c == ' ' || c == '\t' || c == '\n' || c == '\r' || c == '\x0c' || c == '\x0b'

/-- Python `str.strip()` (ASCII whitespace). -/
def strStrip (s : String) : String :=
  ⟨((s.data.dropWhile isPySpace).reverse.dropWhile isPySpace).reverse⟩

/-- Python `s.startswith(c)` for a single character. -/
def strStartsWith (s : String) (c : Char) : Bool := s.data.head? == some c

/-- Python `s.endswith(c)` for a single character. -/
def strEndsWith (s : String) (c : Char) : Bool := s.data.getLast? == some c

/-- The token-file branch of `config_from_sources` (auth/__init__.py lines
311-315): strip the file content; if it both starts and ends with a double
quote, `_token_str` becomes the content with first and last character
removed (`_token[1:-1]`); otherwise `_token_str` is left at `None`. -/
def token_from_file_content (content : String) : Option String :=
  let t := strStrip content
  if strStartsWith t '"' && strEndsWith t '"' then
    some ⟨(t.data.drop 1).dropLast⟩
  else
    none

/-- The file-system environment the configuration code reads through:
`textFile` is the content of a plain-text file (`none` models the open
raising), and `credJson` the parsed client-credential JSON of a path
(`none` models a missing file or a JSON lacking the `client-id` /
`service-secret` fields, both of which raise in
`MixApiClientCred.from_json_file`). -/
structure FileSys where
  textFile : String → Option String
  credJson : String → Option ClientCred

/-- `MixApiAuthHandler.config_from_sources`: validates that exactly one
source is supplied, then builds the four strategy values
`(_token_str, _token_file, _client_cred_file, _client_cred)`. -/
def config_from_sources (fs : FileSys) (token_str token_file client_cred_json : Option String) :
    Except AuthCfgErr (Option String × Option String × Option String × Option ClientCred) :=
  if token_str = none ∧ token_file = none ∧ client_cred_json = none then
    .error .zeroSources
  else if 1 < count_notnone [token_str, token_file, client_cred_json] then
    .error .multiSources
  else if pyTruthyStr token_str then
    .ok (token_str, none, none, none)
  else if pyTruthyStr token_file then
    match token_file with
    | none => .error .fileError
    | some f =>
      match fs.textFile f with
      | none => .error .fileError
      | some content => .ok (token_from_file_content content, some f, none, none)
  else
    match client_cred_json with
    | none => .error .fileError
    | some p =>
      match fs.credJson p with
      | none => .error .fileError
      | some cred => .ok (none, none, some p, some cred)

/-- `MixApiAuthHandler.config`: runs `config_from_sources` and assigns the
returned tuple onto the four strategy fields; an exception propagates
before the assignment, which the pair's second component records. -/
def config (fs : FileSys) (s : MixApiAuthHandler) (token_str token_file client_cred_json : Option String) :
    MixApiAuthHandler × Option AuthCfgErr :=
  match config_from_sources fs token_str token_file client_cred_json with
  | .error e => (s, some e)
  | .ok (a, b, c, d) =>
    ({ s with token_str := a, token_file := b, client_cred_file := c, client_cred := d }, none)

/-- `MixApiAuthHandler.add_expiration_timestamp`: stamps
`strftime(now + timedelta(minutes=14), '%Y%m%dT%H:%M')` onto the exchange
response. Time is in seconds; the result is the stamp's minute count (the
minute-resolution content of the formatted string). -/
def add_expiration_timestamp (nowSec : Nat) : Nat :=
  (nowSec + 14 * 60) / 60

/-- `datetime.strptime(stamp, '%Y%m%dT%H:%M')`: the parsed stamp in
seconds (seconds-of-minute are zero). -/
def strptime_min (stampMin : Nat) : Nat := stampMin * 60

/-- `PyReqMixApiAuthHandler.client_cred_auth` on the success path:
`pyreq_client_cred_auth` performs the exchange (the environment stream
`issue` supplies the `access_token` of the `nexch`-th exchange),
`add_expiration_timestamp` stamps the response, and the
`client_auth_token` setter caches it as `_token_clientauth`. -/
def client_cred_auth (issue : Nat → String) (nowSec : Nat) (s : MixApiAuthHandler) :
    String × MixApiAuthHandler :=
  let tok := issue s.nexch
  let stamp := add_expiration_timestamp nowSec
  (tok, { s with token_clientauth := some ⟨tok, stamp⟩, nexch := s.nexch + 1 })

/-- `MixApiAuthHandler.token_valid`: in client-credential mode, issue a
first token if none is cached, reuse the cached one while
`now <= expires_at`, and otherwise report expiration; in literal-token
mode probe the service (`probe tok = false` models the probe raising
`MixApiAuthTokenExpirationError`); with no strategy the function falls
through and returns `None`. -/
def token_valid (issue : Nat → String) (probe : String → Bool) (nowSec : Nat)
    (excIfExpire : Bool) (s : MixApiAuthHandler) :
    Except AuthErr (Option String × MixApiAuthHandler) :=
  match s.client_cred with
  | some _ =>
    match s.token_clientauth with
    | none =>
      let r := client_cred_auth issue nowSec s
      .ok (some r.1, r.2)
    | some t =>
      if nowSec ≤ strptime_min t.expires_at_min then .ok (some t.access_token, s)
      else if excIfExpire then .error .tokenExpired
      else .ok (none, s)
  | none =>
    match s.token_str with
    | none => .ok (none, s)
    | some ts =>
      if ts == "" then .ok (none, s)
      else if probe ts then .ok (some ts, s)
      else if excIfExpire then .error .tokenExpired
      else .ok (none, s)

/-- The `MixApiAuthHandler.token` property: `token_valid(exc_if_expire=True)`,
with `MixApiAuthTokenExpirationError` caught and answered by a fresh
client-credential exchange when `_client_cred` is set, re-raised
otherwise. -/
def token (issue : Nat → String) (probe : String → Bool) (nowSec : Nat)
    (s : MixApiAuthHandler) : Except AuthErr (Option String × MixApiAuthHandler) :=
  match token_valid issue probe nowSec true s with
  | .ok r => .ok r
  | .error .tokenExpired =>
    match s.client_cred with
    | some _ =>
      let r := client_cred_auth issue nowSec s
      .ok (some r.1, r.2)
    | none => .error .tokenExpired
  | .error e => .error e

/-! ## Status-endpoint response handling (`job/status.py`) -/

/-- JSON values, deep enough for the payload handling of
`pyreq_check_job_status`. -/
inductive JVal where
  | null
  | jbool (b : Bool)
  | jnum (n : Int)
  | jstr (s : String)
  | jarr (elems : List JVal)
  | jobj (fields : List (String × JVal))

/-- Python truthiness of a JSON value. -/
def JVal.falsy : JVal → Bool
  | .null => true
  | .jbool b => !b
  | .jnum n => n == 0
  | .jstr s => s == ""
  | .jarr es => es.isEmpty
  | .jobj fs => fs.isEmpty

/-- Python `d[k]` lookup on a JSON object field list. -/
def lookupField (fs : List (String × JVal)) (k : String) : Option JVal :=
  match fs with
  | [] => none
  | (k2, v) :: rest => if k2 = k then some v else lookupField rest k

/-- Exceptions of the response handling: `KeyError` for a missing field,
`TypeError` for subscripting a non-object. Both are logged and re-raised
by the `except` clause of `pyreq_check_job_status`. -/
inductive PyErr where
  | keyError
  | typeError
  deriving DecidableEq, Repr

/-- `pyreq_check_job_status` (status.py), after the HTTP request produced
the parsed body `resp` (`none` models `requests` returning a body that
parses to JSON `null`... the function only branches on the body): return
`None` when the body is falsy, `resp['data'][0]` when `data` is a
one-element list, the whole body otherwise; a missing `data` key raises
`KeyError` (re-raised after logging). -/
def pyreq_check_job_status (resp : Option JVal) : Except PyErr (Option JVal) :=
  match resp with
  | none => .ok none
  | some r =>
    if r.falsy then .ok none
    else
      match r with
      | .jobj fields =>
        match lookupField fields "data" with
        | none => .error .keyError
        | some (.jarr [e]) => .ok (some e)
        | some _ => .ok (some r)
      | _ => .error .typeError

/-! ## Concurrent multi-job wait (`project/build.py`) -/

/-- Python dict assignment `m[k] = v` on an association list. -/
def dictSet (m : List (String × String)) (k v : String) : List (String × String) :=
  match m with
  | [] => [(k, v)]
  | (k2, v2) :: rest => if k2 = k then (k, v) :: rest else (k2, v2) :: dictSet rest k v

/-- Python dict lookup `m[k]` on an association list. -/
def lookupStr (m : List (String × String)) (k : String) : Option String :=
  match m with
  | [] => none
  | (k2, v) :: rest => if k2 = k then some v else lookupStr rest k

/-- `build_job_wait` (build.py): one per-model coroutine; it runs
`job_wait(..., infinite_wait=True, exc_if_failed=False)` on the model's
job and converts the result into the status label to be written
(`JOB_STATUS_COMPLETED` for a truthy result, `JOB_STATUS_FAILED`
otherwise). -/
def build_job_wait_status (polls : Nat → JobMeta) (fuel : Nat) :
    Option (Except WaitErr String) :=
  match job_wait (fun n => some (polls n)) none true false false fuel with
  | none => none
  | some tr =>
    match tr.result with
    | .error e => some (.error e)
    | .ok .succeeded => some (.ok JOB_STATUS_COMPLETED)
    | .ok _ => some (.ok JOB_STATUS_FAILED)

/-- The initialisation of `model_job_result` in
`wait_for_model_build_jobs`: every submitted model mapped to `''`. -/
def init_model_job_result (jobs : List (String × (Nat → JobMeta))) :
    List (String × String) :=
  jobs.map (fun lj => (lj.1, ""))

/-- The `gather` phase of `wait_for_model_build_jobs`: the per-model
coroutines complete in some interleaving order (the `order` argument, a
permutation of the submitted jobs); each completed coroutine performs its
single lock-protected write `model_job_result[model] = status`
(`update_model_job_status`). An exception in any coroutine propagates
out of `gather` (`none`). -/
def wait_for_model_build_jobs_run (fuel : Nat) :
    List (String × (Nat → JobMeta)) → List (String × String) →
    Option (List (String × String))
  | [], m => some m
  | (l, p) :: rest, m =>
    match build_job_wait_status p fuel with
    | some (.ok st) => wait_for_model_build_jobs_run fuel rest (dictSet m l st)
    | _ => none

/-! ## Helper lemmas -/

/-- The status predicates only raise for a meta lacking the status field. -/
theorem job_completed_error_invalid (m : JobMeta) (e : WaitErr)
    (h : job_completed m = Except.error e) : e = WaitErr.invalidMeta := by
  unfold job_completed job_status_from_meta at h
  cases hm : m.status <;> simp [hm, Except.map] at h
  exact h.symm

/-- `job_succeeded` only raises for a meta lacking the status field. -/
theorem job_succeeded_error_invalid (m : JobMeta) (e : WaitErr)
    (h : job_succeeded m = Except.error e) : e = WaitErr.invalidMeta := by
  unfold job_succeeded job_status_from_meta at h
  cases hm : m.status <;> simp [hm, Except.map] at h
  exact h.symm

/-- `job_failed` only raises for a meta lacking the status field. -/
theorem job_failed_error_invalid (m : JobMeta) (e : WaitErr)
    (h : job_failed m = Except.error e) : e = WaitErr.invalidMeta := by
  unfold job_failed job_status_from_meta at h
  cases hm : m.status <;> simp [hm, Except.map] at h
  exact h.symm

/-- A completed snapshot is either a succeeded one or a failed one. -/
theorem job_completed_cases (m : JobMeta) (h : job_completed m = Except.ok true) :
    job_succeeded m = Except.ok true ∨ job_failed m = Except.ok true := by
  unfold job_completed job_succeeded job_failed job_status_from_meta at *
  cases hm : m.status with
  | none => simp [hm, Except.map] at h
  | some s =>
    simp [hm, Except.map] at h ⊢
    rcases h with h | h <;> simp [h]

/-- No run of the wait loop ever produces the trailing
`Unexpected job status enum` error. -/
theorem job_wait_loop_no_unexpected (polls : Nat → Option JobMeta) (timeout : Nat)
    (iw eit eif : Bool) :
    ∀ fuel idx tw cur acc t,
      job_wait_loop polls timeout iw eit eif fuel idx tw cur acc = some t →
      t.result ≠ Except.error WaitErr.unexpectedEnum := by
  intro fuel
  induction fuel with
  | zero =>
    intro idx tw cur acc t h
    simp [job_wait_loop] at h
  | succ n ih =>
    intro idx tw cur acc t h
    rw [job_wait_loop] at h
    cases hjc : job_completed cur with
    | error e =>
      rw [hjc] at h
      injection h with h
      subst h
      simp [job_completed_error_invalid cur e hjc]
    | ok b =>
      rw [hjc] at h
      cases b with
      | true =>
        rcases job_completed_cases cur hjc with hs | hf
        · rw [hs] at h
          injection h with h
          subst h
          simp
        · cases hjs : job_succeeded cur with
          | error e =>
            rw [hjs] at h
            injection h with h
            subst h
            simp [job_succeeded_error_invalid cur e hjs]
          | ok bs =>
            rw [hjs] at h
            cases bs with
            | true =>
              injection h with h
              subst h
              simp
            | false =>
              rw [hf] at h
              cases eif <;> simp at h <;> subst h <;> simp
      | false =>
        by_cases htime : (!iw && decide (timeout ≤ tw)) = true
        · rw [if_pos htime] at h
          cases eit <;> simp at h <;> subst h <;> simp
        · rw [if_neg htime] at h
          cases hp : polls idx with
          | none =>
            rw [hp] at h
            injection h with h
            subst h
            simp
          | some m =>
            rw [hp] at h
            exact ih _ _ _ _ _ h

/-- On a stream of never-terminal snapshots, `job_wait` with a 12-second
budget makes exactly the polls at accumulated times 0, 5, 10 and 15 and
returns the timed-out sentinel. -/
theorem job_wait_pending_timeout12 (polls : Nat → Option JobMeta)
    (h : ∀ n, ∃ m, polls n = some m ∧ job_completed m = Except.ok false) (k : Nat) :
    job_wait polls (some 12) false false false (k + 4) =
      some ⟨Except.ok WaitRes.timedOut, [0, 5, 10, 15]⟩ := by
  obtain ⟨m0, h0, hc0⟩ := h 0
  obtain ⟨m1, h1, hc1⟩ := h 1
  obtain ⟨m2, h2, hc2⟩ := h 2
  obtain ⟨m3, h3, hc3⟩ := h 3
  unfold job_wait
  rw [h0]
  show job_wait_loop polls 12 false false false (k + 4) 1 0 m0 [0] = _
  rw [job_wait_loop, hc0]
  norm_num [JOB_STATUS_CHK_INTVL]
  rw [h1]
  show job_wait_loop polls 12 false false false (k + 3) 2 5 m1 [0, 5] = _
  rw [job_wait_loop, hc1]
  norm_num [JOB_STATUS_CHK_INTVL]
  rw [h2]
  show job_wait_loop polls 12 false false false (k + 2) 3 10 m2 [0, 5, 10] = _
  rw [job_wait_loop, hc2]
  norm_num [JOB_STATUS_CHK_INTVL]
  rw [h3]
  show job_wait_loop polls 12 false false false (k + 1) 4 15 m3 [0, 5, 10, 15] = _
  rw [job_wait_loop, hc3]
  norm_num

/-! ## Claim C1 -/

/-- C1 counterexample: with a poller that always reports `submitted`,
`job_wait(timeout=12, infinite_wait=False, exc_if_timeout=False)` returns
the timed-out sentinel only after a 4th poll at accumulated time 15s, not
after exactly 3 polls as claimed. -/
theorem c1_counterexample :
    job_wait (constStatus "submitted") (some 12) false false false 10 =
      some ⟨Except.ok WaitRes.timedOut, [0, 5, 10, 15]⟩ ∧
    ([0, 5, 10, 15] : List Nat).length ≠ 3 := ⟨by decide, by decide⟩

/-- C1 (amended): for every poller that never returns a terminal status,
`job_wait` with `timeout=12`, `infinite_wait=False`,
`exc_if_timeout=False` returns the `TimedOut` outcome after exactly 4
polls, performed at accumulated wait times 0s, 5s, 10s and 15s: the
timeout check precedes the sleep, so the 4th poll at accumulated time
15s > 12s happens before the timeout is detected. -/
theorem c1_timeout12_four_polls (polls : Nat → JobMeta)
    (h : ∀ n, job_completed (polls n) = Except.ok false)
    (fuel : Nat) (hfuel : 4 ≤ fuel) :
    job_wait (fun n => some (polls n)) (some 12) false false false fuel =
      some ⟨Except.ok WaitRes.timedOut, [0, 5, 10, 15]⟩ := by
  obtain ⟨k, rfl⟩ : ∃ k, fuel = k + 4 := ⟨fuel - 4, by omega⟩
  exact job_wait_pending_timeout12 _ (fun n => ⟨polls n, rfl, h n⟩) k

/-- C1 witness: the amended statement at the constant `submitted` poller
with fuel 10. -/
theorem c1_timeout12_four_polls_witness :
    job_wait (fun _ => some (⟨some "submitted"⟩ : JobMeta)) (some 12) false false false 10 =
      some ⟨Except.ok WaitRes.timedOut, [0, 5, 10, 15]⟩ :=
  c1_timeout12_four_polls (fun _ => ⟨some "submitted"⟩)
    (fun _ => show job_completed ⟨some "submitted"⟩ = Except.ok false by decide) 10 (by decide)

/-! ## Claim C2 -/

/-- C2 counterexample: a poller whose status field carries `running`, a
value outside the known set, does not make the wait engine raise any
error: the loop keeps polling on it (4 polls) until the timeout sentinel
is returned. -/
theorem c2_counterexample :
    job_wait (constStatus "running") (some 12) false false false 10 =
      some ⟨Except.ok WaitRes.timedOut, [0, 5, 10, 15]⟩ := by decide

/-- C2 (amended): a status value outside {completed, failed}
(case-insensitively) is classified as non-terminal: `job_completed`,
`job_succeeded` and `job_failed` all answer `False` without raising, so
the wait loop silently keeps polling on it until timeout; it is never
interpreted as success or failure. -/
theorem c2_unknown_status_pending (s : String)
    (hc : strLower s ≠ JOB_STATUS_COMPLETED) (hf : strLower s ≠ JOB_STATUS_FAILED)
    (fuel : Nat) (hfuel : 4 ≤ fuel) :
    job_completed ⟨some s⟩ = Except.ok false ∧
    job_succeeded ⟨some s⟩ = Except.ok false ∧
    job_failed ⟨some s⟩ = Except.ok false ∧
    job_wait (constStatus s) (some 12) false false false fuel =
      some ⟨Except.ok WaitRes.timedOut, [0, 5, 10, 15]⟩ := by
  have hcomp : job_completed ⟨some s⟩ = Except.ok false := by
    simp [job_completed, job_status_from_meta, Except.map, beq_eq_false_iff_ne, hc, hf]
  refine ⟨hcomp, ?_, ?_, ?_⟩
  · simp [job_succeeded, job_status_from_meta, Except.map, beq_eq_false_iff_ne, hc]
  · simp [job_failed, job_status_from_meta, Except.map, beq_eq_false_iff_ne, hf]
  · obtain ⟨k, rfl⟩ : ∃ k, fuel = k + 4 := ⟨fuel - 4, by omega⟩
    exact job_wait_pending_timeout12 _ (fun _ => ⟨⟨some s⟩, rfl, hcomp⟩) k

/-- C2 witness: the amended statement at the status value `running`. -/
theorem c2_unknown_status_pending_witness :
    job_completed ⟨some "running"⟩ = Except.ok false ∧
    job_succeeded ⟨some "running"⟩ = Except.ok false ∧
    job_failed ⟨some "running"⟩ = Except.ok false ∧
    job_wait (constStatus "running") (some 12) false false false 10 =
      some ⟨Except.ok WaitRes.timedOut, [0, 5, 10, 15]⟩ :=
  c2_unknown_status_pending "running" (by decide) (by decide) 10 (by decide)

/-! ## Claim C8 -/

/-- C8: whenever the polling loop of `job_wait` exits normally, the final
snapshot satisfies `job_succeeded` or `job_failed`, so the trailing
`Unexpected job status enum` `ValueError` branch is unreachable for every
sequence of poll responses. -/
theorem c8_unexpected_enum_unreachable :
    (∀ m, job_completed m = Except.ok true →
      job_succeeded m = Except.ok true ∨ job_failed m = Except.ok true) ∧
    (∀ (polls : Nat → Option JobMeta) (timeout : Option Nat) (iw eit eif : Bool)
      (fuel : Nat) (t : WaitTrace),
      job_wait polls timeout iw eit eif fuel = some t →
      t.result ≠ Except.error WaitErr.unexpectedEnum) := by
  constructor
  · exact job_completed_cases
  · intro polls timeout iw eit eif fuel t h
    unfold job_wait at h
    split at h
    · injection h with h
      subst h
      simp
    · exact job_wait_loop_no_unexpected polls _ iw eit eif fuel 1 0 _ [0] _ h

/-- C8 witness: the two components at the snapshot `Completed` and at a
completed one-poll run. -/
theorem c8_unexpected_enum_unreachable_witness :
    (job_succeeded ⟨some "Completed"⟩ = Except.ok true ∨
      job_failed ⟨some "Completed"⟩ = Except.ok true) ∧
    (⟨Except.ok WaitRes.succeeded, [0]⟩ : WaitTrace).result ≠
      Except.error WaitErr.unexpectedEnum :=
  ⟨c8_unexpected_enum_unreachable.1 ⟨some "Completed"⟩ (by decide),
   c8_unexpected_enum_unreachable.2 (constStatus "completed") none false false false 1 _ (by decide)⟩

/-! ## Claim C3 -/

/-- C3: for a credential-backed token store holding a cached issued token,
two `token` accesses while `now <= expires_at` both return the identical
cached string and leave the handler (in particular the exchange counter)
unchanged; one access before and one strictly after the expiration
performs exactly one new exchange (the counter increments once) and
returns the newly issued string. -/
theorem c3_token_refresh_idempotent
    (issue : Nat → String) (probe : String → Bool)
    (s : MixApiAuthHandler) (c : ClientCred) (t : IssuedTok)
    (hcred : s.client_cred = some c) (hcache : s.token_clientauth = some t)
    (n1 n2 : Nat) (h1 : n1 ≤ strptime_min t.expires_at_min) :
    (n2 ≤ strptime_min t.expires_at_min →
      token issue probe n1 s = .ok (some t.access_token, s) ∧
      token issue probe n2 s = .ok (some t.access_token, s)) ∧
    (strptime_min t.expires_at_min < n2 →
      token issue probe n1 s = .ok (some t.access_token, s) ∧
      token issue probe n2 s =
        .ok (some (issue s.nexch),
             { s with token_clientauth := some ⟨issue s.nexch, add_expiration_timestamp n2⟩,
                      nexch := s.nexch + 1 })) := by
  have fresh : ∀ n, n ≤ strptime_min t.expires_at_min →
      token issue probe n s = .ok (some t.access_token, s) := by
    intro n hn
    simp [token, token_valid, hcred, hcache, hn]
  constructor
  · intro h2
    exact ⟨fresh n1 h1, fresh n2 h2⟩
  · intro h2
    refine ⟨fresh n1 h1, ?_⟩
    have hn2 : ¬ (n2 ≤ strptime_min t.expires_at_min) := by omega
    simp [token, token_valid, hcred, hcache, hn2, client_cred_auth]

/-- C3 witness: a handler caching a token that expires at minute 100
(second 6000), accessed at 5999 and 6000 (both cached) and at 6001 (one
refresh). -/
theorem c3_token_refresh_idempotent_witness :
    (token (fun _ => "freshTok") (fun _ => true) 5999
        ⟨none, none, some "cred.json", some ⟨"cid", "sec"⟩, some ⟨"tok0", 100⟩, 0⟩ =
      .ok (some "tok0",
        ⟨none, none, some "cred.json", some ⟨"cid", "sec"⟩, some ⟨"tok0", 100⟩, 0⟩) ∧
     token (fun _ => "freshTok") (fun _ => true) 6000
        ⟨none, none, some "cred.json", some ⟨"cid", "sec"⟩, some ⟨"tok0", 100⟩, 0⟩ =
      .ok (some "tok0",
        ⟨none, none, some "cred.json", some ⟨"cid", "sec"⟩, some ⟨"tok0", 100⟩, 0⟩)) ∧
    token (fun _ => "freshTok") (fun _ => true) 6001
        ⟨none, none, some "cred.json", some ⟨"cid", "sec"⟩, some ⟨"tok0", 100⟩, 0⟩ =
      .ok (some "freshTok",
        ⟨none, none, some "cred.json", some ⟨"cid", "sec"⟩, some ⟨"freshTok", 114⟩, 1⟩) := by
  constructor
  · exact (c3_token_refresh_idempotent (fun _ => "freshTok") (fun _ => true) _
      ⟨"cid", "sec"⟩ ⟨"tok0", 100⟩ rfl rfl 5999 6000 (by decide)).1 (by decide)
  · exact ((c3_token_refresh_idempotent (fun _ => "freshTok") (fun _ => true) _
      ⟨"cid", "sec"⟩ ⟨"tok0", 100⟩ rfl rfl 5999 6001 (by decide)).2 (by decide)).2

/-! ## Claim C4 -/

/-- A truthy optional string is a `some` of a non-empty string. -/
theorem pyTruthyStr_eq_some {o : Option String} (h : pyTruthyStr o = true) :
    ∃ x, o = some x ∧ (x == "") = false := by
  cases o with
  | none => simp [pyTruthyStr] at h
  | some x =>
    refine ⟨x, rfl, ?_⟩
    simpa [pyTruthyStr] using h

/-- C4: over every combination of supplied/unsupplied auth sources (each
either absent or a non-empty string, with supplied files readable),
`config_from_sources` raises the zero-source `ValueError` when no source
is supplied, the multiple-source `ValueError` when more than one is, and
succeeds exactly in the one-source cases. -/
theorem c4_exactly_one_source (fs : FileSys) (ts tf cc : Option String)
    (hts : ts = none ∨ pyTruthyStr ts = true)
    (htf : tf = none ∨ pyTruthyStr tf = true)
    (hcc : cc = none ∨ pyTruthyStr cc = true)
    (hfile : ∀ f, tf = some f → ∃ content, fs.textFile f = some content)
    (hcred : ∀ p, cc = some p → ∃ cred, fs.credJson p = some cred) :
    (count_notnone [ts, tf, cc] = 0 →
      config_from_sources fs ts tf cc = .error .zeroSources) ∧
    (1 < count_notnone [ts, tf, cc] →
      config_from_sources fs ts tf cc = .error .multiSources) ∧
    (count_notnone [ts, tf, cc] = 1 →
      ∃ res, config_from_sources fs ts tf cc = .ok res) := by
  rcases hts with rfl | hts'
  · rcases htf with rfl | htf'
    · rcases hcc with rfl | hcc'
      · simp [count_notnone, pyTruthyStr, config_from_sources]
      · obtain ⟨p, rfl, hpne⟩ := pyTruthyStr_eq_some hcc'
        obtain ⟨cred, hcredp⟩ := hcred p rfl
        simp [count_notnone, pyTruthyStr, config_from_sources, hpne, hcredp]
    · obtain ⟨f, rfl, hfne⟩ := pyTruthyStr_eq_some htf'
      obtain ⟨content, hcont⟩ := hfile f rfl
      rcases hcc with rfl | hcc'
      · simp [count_notnone, pyTruthyStr, config_from_sources, hfne, hcont]
      · obtain ⟨p, rfl, hpne⟩ := pyTruthyStr_eq_some hcc'
        simp [count_notnone, pyTruthyStr, config_from_sources, hfne, hpne]
  · obtain ⟨x, rfl, hxne⟩ := pyTruthyStr_eq_some hts'
    rcases htf with rfl | htf'
    · rcases hcc with rfl | hcc'
      · simp [count_notnone, pyTruthyStr, config_from_sources, hxne]
      · obtain ⟨p, rfl, hpne⟩ := pyTruthyStr_eq_some hcc'
        simp [count_notnone, pyTruthyStr, config_from_sources, hxne, hpne]
    · obtain ⟨f, rfl, hfne⟩ := pyTruthyStr_eq_some htf'
      rcases hcc with rfl | hcc'
      · simp [count_notnone, pyTruthyStr, config_from_sources, hxne, hfne]
      · obtain ⟨p, rfl, hpne⟩ := pyTruthyStr_eq_some hcc'
        simp [count_notnone, pyTruthyStr, config_from_sources, hxne, hfne, hpne]

/-- C4 witness: zero sources fail, a literal-token-plus-file pair fails,
and a lone literal token succeeds. -/
theorem c4_exactly_one_source_witness :
    config_from_sources ⟨fun _ => none, fun _ => none⟩ none none none =
      .error .zeroSources ∧
    config_from_sources ⟨fun _ => some "tok", fun _ => none⟩
      (some "tok") (some "t.txt") none = .error .multiSources ∧
    (∃ res, config_from_sources ⟨fun _ => none, fun _ => none⟩
      (some "tok") none none = .ok res) := by
  refine ⟨?_, ?_, ?_⟩
  · exact (c4_exactly_one_source ⟨fun _ => none, fun _ => none⟩ none none none
      (Or.inl rfl) (Or.inl rfl) (Or.inl rfl)
      (by intro f hf; simp at hf) (by intro p hp; simp at hp)).1 (by decide)
  · exact (c4_exactly_one_source ⟨fun _ => some "tok", fun _ => none⟩
      (some "tok") (some "t.txt") none
      (Or.inr (by decide)) (Or.inr (by decide)) (Or.inl rfl)
      (by intro f hf; exact ⟨"tok", rfl⟩) (by intro p hp; simp at hp)).2.1 (by decide)
  · exact (c4_exactly_one_source ⟨fun _ => none, fun _ => none⟩
      (some "tok") none none
      (Or.inr (by decide)) (Or.inl rfl) (Or.inl rfl)
      (by intro f hf; simp at hf) (by intro p hp; simp at hp)).2.2 (by decide)

/-! ## Claim C5 -/

/-- C5: the code drops the token of an unquoted token file. A file whose
stripped content does not both start and end with a double quote leaves
`_token_str` at `None` (first conjunct), while a quoted file yields the
content between the quotes (second conjunct); configuring from such an
unquoted file therefore succeeds with `_token_str = None` (third
conjunct), and the resulting handler has no usable token: `token_valid`
falls through and returns `None` (fourth conjunct). -/
theorem c5_token_file_quote_bug :
    token_from_file_content "mytoken123\n" = none ∧
    token_from_file_content "\"mytoken123\"\n" = some "mytoken123" ∧
    config_from_sources
        ⟨fun p => if p = "token.txt" then some "mytoken123\n" else none, fun _ => none⟩
        none (some "token.txt") none =
      .ok (none, some "token.txt", none, none) ∧
    token_valid (fun _ => "x") (fun _ => true) 0 false
        ⟨none, some "token.txt", none, none, none, 0⟩ =
      .ok (none, ⟨none, some "token.txt", none, none, none, 0⟩) :=
  ⟨by decide, by decide, by decide, by decide⟩

/-! ## Claim C6 -/

/-- A `token` access that performs no exchange leaves the cached issued
token (and hence its expiration stamp) unchanged. -/
theorem token_same_nexch_preserves_cache (issue : Nat → String) (probe : String → Bool)
    (nowSec : Nat) (s s2 : MixApiAuthHandler) (r : Option String)
    (h : token issue probe nowSec s = .ok (r, s2)) (hn : s2.nexch = s.nexch) :
    s2.token_clientauth = s.token_clientauth := by
  cases hcc : s.client_cred with
  | some c =>
    cases hct : s.token_clientauth with
    | none =>
      simp [token, token_valid, client_cred_auth, hcc, hct] at h
      obtain ⟨hr, hs⟩ := h
      rw [← hs] at hn
      simp at hn
    | some t =>
      by_cases hle : nowSec ≤ strptime_min t.expires_at_min
      · simp [token, token_valid, hcc, hct, hle] at h
        obtain ⟨hr, hs⟩ := h
        subst hs
        exact hct
      · simp [token, token_valid, client_cred_auth, hcc, hct, hle] at h
        obtain ⟨hr, hs⟩ := h
        rw [← hs] at hn
        simp at hn
  | none =>
    cases hts : s.token_str with
    | none =>
      simp [token, token_valid, hcc, hts] at h
      obtain ⟨hr, hs⟩ := h
      subst hs
      rfl
    | some tstr =>
      by_cases hemp : tstr = ""
      · simp [token, token_valid, hcc, hts, hemp] at h
        obtain ⟨hr, hs⟩ := h
        subst hs
        rfl
      · by_cases hprobe : probe tstr = true
        · simp [token, token_valid, hcc, hts, hemp, hprobe] at h
          obtain ⟨hr, hs⟩ := h
          subst hs
          rfl
        · simp [token, token_valid, hcc, hts, hemp, hprobe] at h

/-- C6: the expiration stamp put on a freshly issued token is the
issuance time plus exactly 14 minutes, at the minute resolution of
`TIMESTAMP_FORMAT` (first conjunct), and the stamp is computed only at
issuance: any `token` access that performs no exchange leaves the cached
token, and so its `expires_at`, unchanged (second conjunct). -/
theorem c6_expiration_stamp :
    (∀ nowSec : Nat, add_expiration_timestamp nowSec = nowSec / 60 + 14) ∧
    (∀ (issue : Nat → String) (probe : String → Bool) (nowSec : Nat)
      (s s2 : MixApiAuthHandler) (r : Option String),
      token issue probe nowSec s = .ok (r, s2) → s2.nexch = s.nexch →
      s2.token_clientauth = s.token_clientauth) :=
  ⟨fun nowSec => by unfold add_expiration_timestamp; omega,
   fun issue probe nowSec s s2 r h hn =>
     token_same_nexch_preserves_cache issue probe nowSec s s2 r h hn⟩

/-- C6 witness: the stamp arithmetic at second 90, and cache preservation
across a cached-token access at second 50. -/
theorem c6_expiration_stamp_witness :
    add_expiration_timestamp 90 = 90 / 60 + 14 ∧
    (⟨none, none, some "cred.json", some ⟨"cid", "sec"⟩, some ⟨"tok0", 100⟩, 0⟩ :
        MixApiAuthHandler).token_clientauth =
      (⟨none, none, some "cred.json", some ⟨"cid", "sec"⟩, some ⟨"tok0", 100⟩, 0⟩ :
        MixApiAuthHandler).token_clientauth :=
  ⟨c6_expiration_stamp.1 90,
   c6_expiration_stamp.2 (fun _ => "x") (fun _ => true) 50 _ _ (some "tok0")
     (by decide) rfl⟩

/-! ## Claim C7 -/

/-- Writing a key makes later lookup of that key return the written
value. -/
theorem lookupStr_dictSet_eq (m : List (String × String)) (k v : String) :
    lookupStr (dictSet m k v) k = some v := by
  induction m with
  | nil => simp [dictSet, lookupStr]
  | cons kv rest ih =>
    obtain ⟨k2, v2⟩ := kv
    by_cases h : k2 = k
    · simp [dictSet, lookupStr, h]
    · simp [dictSet, lookupStr, h, ih]

/-- Writing one key leaves lookups of other keys unchanged. -/
theorem lookupStr_dictSet_ne (m : List (String × String)) (k v l : String)
    (h : k ≠ l) :
    lookupStr (dictSet m k v) l = lookupStr m l := by
  induction m with
  | nil => simp [dictSet, lookupStr, h]
  | cons kv rest ih =>
    obtain ⟨k2, v2⟩ := kv
    by_cases h2 : k2 = k
    · subst h2
      simp [dictSet, lookupStr, h]
    · simp [dictSet, lookupStr, h2, ih]

/-- If every per-job wait of a schedule resolves, the whole gathered run
resolves. -/
theorem run_total (fuel : Nat) :
    ∀ (order : List (String × (Nat → JobMeta))) (init : List (String × String)),
      (∀ x ∈ order, ∃ st, build_job_wait_status x.2 fuel = some (Except.ok st)) →
      ∃ m, wait_for_model_build_jobs_run fuel order init = some m := by
  intro order
  induction order with
  | nil =>
    intro init _
    exact ⟨init, rfl⟩
  | cons y rest ih =>
    intro init hok
    obtain ⟨yl, yp⟩ := y
    obtain ⟨st, hst⟩ := hok (yl, yp) (List.mem_cons_self _ _)
    obtain ⟨m, hm⟩ := ih (dictSet init yl st) (fun x hx => hok x (List.mem_cons_of_mem _ hx))
    refine ⟨m, ?_⟩
    unfold wait_for_model_build_jobs_run
    rw [hst]
    exact hm

/-- Tasks of other labels never change a label's entry. -/
theorem run_lookup_untouched (fuel : Nat) (l : String) :
    ∀ (order : List (String × (Nat → JobMeta))) (init m : List (String × String)),
      (∀ x ∈ order, x.1 ≠ l) →
      wait_for_model_build_jobs_run fuel order init = some m →
      lookupStr m l = lookupStr init l := by
  intro order
  induction order with
  | nil =>
    intro init m _ h
    injection h with h
    rw [← h]
  | cons y rest ih =>
    intro init m hne h
    obtain ⟨yl, yp⟩ := y
    unfold wait_for_model_build_jobs_run at h
    cases hb : build_job_wait_status yp fuel with
    | none => rw [hb] at h; exact absurd h (by simp)
    | some r =>
      cases r with
      | error e => rw [hb] at h; exact absurd h (by simp)
      | ok st =>
        rw [hb] at h
        have step := ih (dictSet init yl st) m
          (fun x hx => hne x (List.mem_cons_of_mem _ hx)) h
        rw [step]
        exact lookupStr_dictSet_ne init yl st l
          (hne (yl, yp) (List.mem_cons_self _ _))

/-- A scheduled job whose label occurs for no other pair ends up mapped to
its own terminal status. -/
theorem run_lookup_mem (fuel : Nat) (x : String × (Nat → JobMeta)) (st : String)
    (hst : build_job_wait_status x.2 fuel = some (Except.ok st)) :
    ∀ (order : List (String × (Nat → JobMeta))) (init m : List (String × String)),
      wait_for_model_build_jobs_run fuel order init = some m →
      x ∈ order →
      (∀ y ∈ order, y.1 = x.1 → y = x) →
      lookupStr m x.1 = some st := by
  intro order
  induction order with
  | nil =>
    intro init m _ hx
    exact absurd hx (List.not_mem_nil _)
  | cons y rest ih =>
    intro init m h hx hinj
    by_cases hxr : x ∈ rest
    · obtain ⟨yl, yp⟩ := y
      unfold wait_for_model_build_jobs_run at h
      cases hb : build_job_wait_status yp fuel with
      | none => rw [hb] at h; exact absurd h (by simp)
      | some r =>
        cases r with
        | error e => rw [hb] at h; exact absurd h (by simp)
        | ok st2 =>
          rw [hb] at h
          exact ih (dictSet init yl st2) m h hxr
            (fun z hz hlab => hinj z (List.mem_cons_of_mem _ hz) hlab)
    · have hxy : x = y := by
        rcases List.mem_cons.mp hx with h1 | h1
        · exact h1
        · exact absurd h1 hxr
      subst hxy
      obtain ⟨xl, xp⟩ := x
      unfold wait_for_model_build_jobs_run at h
      cases hb : build_job_wait_status xp fuel with
      | none => rw [hb] at h; exact absurd h (by simp)
      | some r =>
        cases r with
        | error e => rw [hb] at h; exact absurd h (by simp)
        | ok st2 =>
          rw [hb] at h
          have hst2 : st2 = st := by
            rw [hst] at hb
            injection hb with hb
            injection hb with hb
            exact hb.symm
          subst hst2
          have hrest : ∀ z ∈ rest, z.1 ≠ xl := by
            intro z hz hlab
            have := hinj z (List.mem_cons_of_mem _ hz) hlab
            subst this
            exact hxr hz
          have := run_lookup_untouched fuel xl rest (dictSet init xl st2) m hrest h
          rw [this]
          exact lookupStr_dictSet_eq init xl st2

/-- On a list of labelled pairs with pairwise distinct labels, the label
determines the pair. -/
theorem nodup_fst_pair_inj {α : Type} (jobs : List (String × α))
    (h : (jobs.map Prod.fst).Nodup) :
    ∀ a ∈ jobs, ∀ b ∈ jobs, a.1 = b.1 → a = b := by
  induction jobs with
  | nil => simp
  | cons y rest ih =>
    rw [List.map_cons, List.nodup_cons] at h
    intro a ha b hb hab
    rcases List.mem_cons.mp ha with rfl | ha2
    · rcases List.mem_cons.mp hb with rfl | hb2
      · rfl
      · exact absurd (hab ▸ List.mem_map_of_mem Prod.fst hb2) h.1
    · rcases List.mem_cons.mp hb with rfl | hb2
      · exact absurd (hab ▸ List.mem_map_of_mem Prod.fst ha2) h.1
      · exact ih h.2 a ha2 b hb2 hab

/-- C7: `wait_for_model_build_jobs` over labelled jobs with distinct
labels, whose per-job waits all terminate, joins all the per-job waits
(the run resolves to a final map) and, for EVERY completion interleaving
(every permutation `order` of the jobs), the final map binds each input
label to the terminal outcome of its own job, with no lost updates. -/
theorem c7_wait_many (jobs order : List (String × (Nat → JobMeta))) (fuel : Nat)
    (hperm : order.Perm jobs)
    (hnodup : (jobs.map Prod.fst).Nodup)
    (hok : ∀ x ∈ jobs, ∃ st, build_job_wait_status x.2 fuel = some (Except.ok st)) :
    ∃ m, wait_for_model_build_jobs_run fuel order (init_model_job_result jobs) = some m ∧
      ∀ x ∈ jobs, ∀ st, build_job_wait_status x.2 fuel = some (Except.ok st) →
        lookupStr m x.1 = some st := by
  have hsub : ∀ x ∈ order, x ∈ jobs := fun x hx => hperm.mem_iff.mp hx
  obtain ⟨m, hm⟩ := run_total fuel order (init_model_job_result jobs)
    (fun x hx => hok x (hsub x hx))
  refine ⟨m, hm, ?_⟩
  intro x hx st hst
  exact run_lookup_mem fuel x st hst order (init_model_job_result jobs) m hm
    (hperm.mem_iff.mpr hx)
    (fun y hy hlab => nodup_fst_pair_inj jobs hnodup y (hsub y hy) x hx hlab)

/-- C7 witness: job `a` succeeds after 2 polls, job `b` fails after 1
poll, run with the interleaving that completes `b` first; the result map
is `{a: completed, b: failed}`. -/
theorem c7_wait_many_witness :
    ∃ m, wait_for_model_build_jobs_run 10
        [("b", fun _ => (⟨some "failed"⟩ : JobMeta)),
         ("a", fun n => if n = 0 then (⟨some "submitted"⟩ : JobMeta) else ⟨some "completed"⟩)]
        (init_model_job_result
          [("a", fun n => if n = 0 then (⟨some "submitted"⟩ : JobMeta) else ⟨some "completed"⟩),
           ("b", fun _ => (⟨some "failed"⟩ : JobMeta))]) = some m ∧
      lookupStr m "a" = some "completed" ∧ lookupStr m "b" = some "failed" := by
  obtain ⟨m, hm, hall⟩ := c7_wait_many
    [("a", fun n => if n = 0 then (⟨some "submitted"⟩ : JobMeta) else ⟨some "completed"⟩),
     ("b", fun _ => (⟨some "failed"⟩ : JobMeta))]
    [("b", fun _ => (⟨some "failed"⟩ : JobMeta)),
     ("a", fun n => if n = 0 then (⟨some "submitted"⟩ : JobMeta) else ⟨some "completed"⟩)]
    10
    (List.Perm.swap _ _ _)
    (by simp)
    (by
      intro x hx
      rcases List.mem_cons.mp hx with rfl | hx2
      · exact ⟨"completed", by decide⟩
      · rcases List.mem_cons.mp hx2 with rfl | hx3
        · exact ⟨"failed", by decide⟩
        · exact absurd hx3 (List.not_mem_nil _))
  refine ⟨m, hm, ?_, ?_⟩
  · exact hall _ (List.mem_cons_self _ _) "completed" (by decide)
  · exact hall _ (List.mem_cons_of_mem _ (List.mem_cons_self _ _)) "failed" (by decide)

/-! ## Claim C9 -/

/-- C9: when `config` fails (zero sources, several sources, or a
file/parse failure of a supplied source), none of the handler's strategy
fields is modified: the previous configuration survives intact. -/
theorem c9_config_atomic (fs : FileSys) (s : MixApiAuthHandler)
    (ts tf cc : Option String) (e : AuthCfgErr)
    (h : (config fs s ts tf cc).2 = some e) :
    (config fs s ts tf cc).1 = s := by
  unfold config at h ⊢
  cases hc : config_from_sources fs ts tf cc with
  | error e2 => rfl
  | ok tup =>
    obtain ⟨a, b, c2, d⟩ := tup
    rw [hc] at h
    simp at h

/-- C9 witness: reconfiguring with zero sources leaves a previously
configured handler unchanged. -/
theorem c9_config_atomic_witness :
    (config ⟨fun _ => none, fun _ => none⟩
      ⟨some "old", none, none, none, none, 0⟩ none none none).1 =
      ⟨some "old", none, none, none, none, 0⟩ :=
  c9_config_atomic ⟨fun _ => none, fun _ => none⟩
    ⟨some "old", none, none, none, none, 0⟩ none none none .zeroSources rfl

/-! ## Claim C10 -/

/-- C10: `pyreq_check_job_status` returns `None` for an empty/falsy
response body; a non-empty object lacking the `data` field raises
`KeyError`; an object whose `data` is a one-element list yields that
single element; any other non-empty object is returned whole. -/
theorem c10_pyreq_check (fields : List (String × JVal)) :
    pyreq_check_job_status none = .ok none ∧
    (fields.isEmpty = true →
      pyreq_check_job_status (some (.jobj fields)) = .ok none) ∧
    (fields.isEmpty = false → lookupField fields "data" = none →
      pyreq_check_job_status (some (.jobj fields)) = .error .keyError) ∧
    (∀ e, fields.isEmpty = false → lookupField fields "data" = some (.jarr [e]) →
      pyreq_check_job_status (some (.jobj fields)) = .ok (some e)) ∧
    (∀ v, fields.isEmpty = false → lookupField fields "data" = some v →
      (∀ e, v ≠ .jarr [e]) →
      pyreq_check_job_status (some (.jobj fields)) = .ok (some (.jobj fields))) := by
  refine ⟨rfl, ?_, ?_, ?_, ?_⟩
  · intro he
    simp [pyreq_check_job_status, JVal.falsy, he]
  · intro hne hdata
    simp [pyreq_check_job_status, JVal.falsy, hne, hdata]
  · intro e hne hdata
    simp [pyreq_check_job_status, JVal.falsy, hne, hdata]
  · intro v hne hdata hnot
    simp only [pyreq_check_job_status, JVal.falsy, hne, hdata]
    rcases v with _ | b | n | s | es | fs2
    · simp
    · simp
    · simp
    · simp
    · rcases es with _ | ⟨e1, es2⟩
      · simp
      · rcases es2 with _ | ⟨e2, es3⟩
        · exact absurd rfl (hnot e1)
        · simp
    · simp

/-- C10 witness: a missing `data` field raises `KeyError`, a one-element
`data` list is unwrapped, a scalar `data` leaves the body whole. -/
theorem c10_pyreq_check_witness :
    pyreq_check_job_status (some (.jobj [("id", .jstr "j")])) = .error .keyError ∧
    pyreq_check_job_status (some (.jobj [("data", .jarr [.jstr "x"])])) =
      .ok (some (.jstr "x")) ∧
    pyreq_check_job_status (some (.jobj [("data", .jstr "y")])) =
      .ok (some (.jobj [("data", .jstr "y")])) :=
  ⟨(c10_pyreq_check [("id", .jstr "j")]).2.2.1 rfl rfl,
   (c10_pyreq_check [("data", .jarr [.jstr "x"])]).2.2.2.1 (.jstr "x") rfl rfl,
   (c10_pyreq_check [("data", .jstr "y")]).2.2.2.2 (.jstr "y") rfl rfl
     (fun e he => JVal.noConfusion he)⟩

end MixCli
